import Mathlib

/-!
Shallow embedding of the BattleMetrics WebSocket client (`src/client.ts`,
class `WSClient`).  Transport handles, timers and wall-clock time are made
explicit: the transport is a record of a ready state and four attached-listener
flags, pending timers are booleans in the client state, and `Date.now()` is a
`Nat` parameter threaded into each handler.  JavaScript truthiness of the
optional fields (`lastMessage`, the previous connection timestamp, `msg.i`) is
modelled exactly: an empty string and the number 0 are falsy.  Outbound frames
are accumulated in order in a list, one entry per `ws.send` call.
-/

/-- Ready states of the underlying WebSocket transport
(`WebSocket.CONNECTING/OPEN/CLOSING/CLOSED`). -/
inductive ReadyState where
  | connecting
  | opened
  | closing
  | closed
deriving DecidableEq, Repr

/-- The transport handle: its ready state plus one flag per lifecycle listener
the client attaches in `setupConnection` and removes in `close`. -/
structure WS where
  readyState : ReadyState
  openAttached : Bool
  closeAttached : Bool
  messageAttached : Bool
  errorAttached : Bool
deriving DecidableEq, Repr

/-- A filter specification object.  JavaScript compares filter specs with
`===`, i.e. by object reference, so each object carries an explicit reference
identity `ref`; `content` is the (opaque) structural content.  Two objects that
are structurally equal but distinct have equal `content` and different `ref`. -/
structure FilterObj where
  ref : Nat
  content : String
deriving DecidableEq, Repr

/-- Outbound wire frames, one constructor per `t` tag the client sends. -/
inductive Frame where
  | joinF (channels : List String)
  | leaveF (channels : List String)
  | filterF (ty : String) (spec : FilterObj)
  | authF (token : String)
  | replayF (channels : List String) (start : String)
  | pingF
deriving DecidableEq, Repr

/-- Mutable state of a `WSClient` instance.  `monitorPending` models a pending
`monitorInterval` timer, `reconnectPending` a pending `reconnectTimeout`.
`channels` is the `Set<string>` in insertion order (no duplicates),
`filters` the `Map<string, any>` in insertion order (unique keys). -/
structure WSClientState where
  ws : Option WS
  lastPing : Option Nat
  monitorPending : Bool
  reconnectPending : Bool
  lastMessage : Option String
  lastConnected : Option Nat
  channels : List String
  filters : List (String × FilterObj)
  retryDelay : Nat
  replayMaxTime : Nat
deriving DecidableEq, Repr

/-- The state of a freshly constructed client (`new WSClient(_, replayMaxTime)`). -/
def initialState (replayMaxTime : Nat) : WSClientState :=
  { ws := none
    lastPing := none
    monitorPending := false
    reconnectPending := false
    lastMessage := none
    lastConnected := none
    channels := []
    filters := []
    retryDelay := 0
    replayMaxTime := replayMaxTime }

/-- `Map.prototype.get`: first (unique) binding of the key, if any. -/
def mapGet (m : List (String × FilterObj)) (k : String) : Option FilterObj :=
  match m with
  | [] => none
  | (k2, v) :: rest => if k2 == k then some v else mapGet rest k

/-- `Map.prototype.set`: update in place keeping insertion order, or append. -/
def mapSet (m : List (String × FilterObj)) (k : String) (v : FilterObj) :
    List (String × FilterObj) :=
  match m with
  | [] => [(k, v)]
  | (k2, w) :: rest =>
      if k2 == k then (k2, v) :: rest else (k2, w) :: mapSet rest k v

/-- `Set.prototype.add`: append unless already present. -/
def setAdd (s : List String) (c : String) : List String :=
  if s.contains c then s else s ++ [c]

/-- `Set.prototype.delete`: remove the element (a no-op when absent). -/
def setDelete (s : List String) (c : String) : List String :=
  s.filter (fun x => !(x == c))

/-- The guard `this.ws && this.ws.readyState === WebSocket.OPEN`. -/
def wsOpen (s : WSClientState) : Bool :=
  match s.ws with
  | some w => w.readyState == ReadyState.opened
  | none => false

/-- JavaScript truthiness of an optional string (`undefined` and `""` falsy). -/
def truthyStr (o : Option String) : Bool :=
  match o with
  | none => false
  | some m => !(m == "")

/-- JavaScript truthiness of an optional number (`undefined` and `0` falsy). -/
def truthyNat (o : Option Nat) : Bool :=
  match o with
  | none => false
  | some n => !(n == 0)

/-- One `ws.send(...)` call: the frame is appended to the outbound sequence. -/
def sendAll (out : List Frame) (f : Frame) : List Frame := out ++ [f]

namespace WSClient

/-- `join(channel)`: no-op if already a member; otherwise add to the set and,
if the transport is open, send a single-channel join frame. -/
def join (s : WSClientState) (channel : String) : WSClientState × List Frame :=
  if s.channels.contains channel then (s, [])
  else
    let s1 := { s with channels := setAdd s.channels channel }
    if wsOpen s1 then (s1, [Frame.joinF [channel]]) else (s1, [])

/-- `leave(channel)`: unconditionally delete from the set and, if the transport
is open, send a single-channel leave frame. -/
def leave (s : WSClientState) (channel : String) : WSClientState × List Frame :=
  let s1 := { s with channels := setDelete s.channels channel }
  if wsOpen s1 then (s1, [Frame.leaveF [channel]]) else (s1, [])

/-- The dedup check `this.filters.get(type) === filter`: reference equality
against the stored spec (`undefined === obj` is false). -/
def sameRef (stored : Option FilterObj) (f : FilterObj) : Bool :=
  match stored with
  | some g => g.ref == f.ref
  | none => false

/-- `filter(type, filter)`: no-op when the stored spec is reference-equal;
otherwise store it and, if the transport is open, send a filter frame. -/
def filter (s : WSClientState) (ty : String) (f : FilterObj) :
    WSClientState × List Frame :=
  if sameRef (mapGet s.filters ty) f then (s, [])
  else
    let s1 := { s with filters := mapSet s.filters ty f }
    if wsOpen s1 then (s1, [Frame.filterF ty f]) else (s1, [])

/-- `close()`: if a transport handle exists, remove its four lifecycle
listeners, call `ws.close()` (the handle enters `CLOSING`; its events no longer
reach the client), clear the handle, and cancel a pending reconnect timer.
Returns the new client state and the final state of the detached handle. -/
def close (s : WSClientState) : WSClientState × Option WS :=
  match s.ws with
  | none => (s, none)
  | some w =>
      let w1 : WS := { w with openAttached := false, closeAttached := false,
                              messageAttached := false, errorAttached := false }
      let w2 : WS := { w1 with readyState := ReadyState.closing }
      let s1 := { s with ws := none }
      let s2 := if s1.reconnectPending then { s1 with reconnectPending := false } else s1
      (s2, some w2)

/-- The fresh transport made by `setupConnection`: `new WebSocket(...)` starts
in `CONNECTING` with all four lifecycle listeners attached. -/
def newTransport : WS :=
  { readyState := ReadyState.connecting
    openAttached := true
    closeAttached := true
    messageAttached := true
    errorAttached := true }

/-- `setupConnection()`: create a transport and attach the four listeners. -/
def setupConnection (s : WSClientState) : WSClientState :=
  { s with ws := some newTransport }

/-- `open()`: no-op if a handle exists; otherwise set up a connection and
cancel a pending reconnect timer. -/
def openConn (s : WSClientState) : WSClientState :=
  match s.ws with
  | some _ => s
  | none =>
      let s1 := setupConnection s
      if s1.reconnectPending then { s1 with reconnectPending := false } else s1

/-- `retryConnection`: cancel a previously pending reconnect timer, schedule a
new one after `retryDelay` seconds, then bump the delay by
`Math.floor(Math.random() * 6) + 5`.  The random draw is modelled by its floor
`k` (so the increment is `k + 5`; the source guarantees `k ≤ 5`).  Returns the
new state and the delay, in seconds, at which the attempt was scheduled. -/
def retryConnection (k : Nat) (s : WSClientState) : WSClientState × Nat :=
  let s1 := { s with reconnectPending := true }
  let s2 := { s1 with retryDelay := min 60 (s1.retryDelay + (k + 5)) }
  (s2, s.retryDelay)

/-- The reconnect timer firing: clear the pending flag and run
`setupConnection`.  A timer only fires while it is pending. -/
def fireReconnectTimeout (s : WSClientState) : WSClientState :=
  if s.reconnectPending then setupConnection { s with reconnectPending := false }
  else s

/-- The `onClose` listener: clear the handle, stop the monitor interval if
pending, then run `retryConnection` (with jitter floor `k`). -/
def onCloseEvent (k : Nat) (s : WSClientState) : WSClientState × Nat :=
  let s1 := { s with ws := none }
  let s2 := if s1.monitorPending then { s1 with monitorPending := false } else s1
  retryConnection k s2

/-- The `error` listener is `retryConnection` itself. -/
def onErrorEvent (k : Nat) (s : WSClientState) : WSClientState × Nat :=
  retryConnection k s

/-- The synchronous head of `onOpen`, before the token await: capture the
previous `lastConnected`, overwrite it with now, stamp `lastPing`, reset the
retry delay and (re)arm the monitor timer.  Returns the captured
`prevLastConnected`. -/
def onOpenUpdate (now : Nat) (s : WSClientState) : WSClientState × Option Nat :=
  let prev := s.lastConnected
  let s1 := { s with lastConnected := some now
                     lastPing := some now
                     retryDelay := 0
                     monitorPending := true }
  (s1, prev)

/-- The replay guard in `joinRoomsFilter`:
`this.lastMessage && prevLastConnected && Date.now() - prevLastConnected < this.replayMaxTime`,
with JavaScript truthiness and signed arithmetic. -/
def replayCondition (lm : Option String) (prev : Option Nat) (now maxT : Nat) : Bool :=
  truthyStr lm && truthyNat prev &&
    (match prev with
     | some p => decide ((now : Int) - (p : Int) < (maxT : Int))
     | none => false)

/-- The body of `joinRoomsFilter` once the open-guard passed: send one filter
frame per stored entry (map iteration order), send one join frame carrying the
whole channel set, then, if the replay guard holds, send a replay frame scoped
to the whole channel set starting at `lastMessage`. -/
def joinRoomsFilter (channels : List String) (filters : List (String × FilterObj))
    (lm : Option String) (prev : Option Nat) (now maxT : Nat) : List Frame :=
  let out : List Frame :=
    filters.foldl (fun acc p => sendAll acc (Frame.filterF p.1 p.2)) []
  let out := sendAll out (Frame.joinF channels)
  if replayCondition lm prev now maxT then
    sendAll out (Frame.replayF channels (lm.getD ""))
  else out

/-- `joinRoomsFilter` as invoked on the client state (after auth): it sends
nothing unless the transport is still open. -/
def resyncReplay (s : WSClientState) (prev : Option Nat) (now : Nat) : List Frame :=
  if wsOpen s then
    joinRoomsFilter s.channels s.filters s.lastMessage prev now s.replayMaxTime
  else []

/-- An inbound envelope as the dispatcher sees it after `JSON.parse`:
`i` may be absent or empty, `t` is the type tag. -/
structure Envelope where
  i : Option String
  t : String
deriving DecidableEq, Repr

/-- Truthiness of `msg.i`. -/
def envTruthyI (e : Envelope) : Bool := truthyStr e.i

/-- The `onMessage` listener on a text frame: stamp `lastPing`; record
`lastMessage := msg.i` when `msg.i` is truthy and the type is neither `error`
nor `ack`; drop `ack` frames; emit everything else.  The boolean result is
whether the frame was emitted outward. -/
def onMessage (now : Nat) (s : WSClientState) (e : Envelope) :
    WSClientState × Bool :=
  let s1 := { s with lastPing := some now }
  let s2 := if envTruthyI e && !(e.t == "error") && !(e.t == "ack")
            then { s1 with lastMessage := e.i } else s1
  if e.t == "ack" then (s2, false) else (s2, true)

end WSClient

/-- One backoff update: `delay = min(60, delay + (k + 5))` for jitter floor `k`. -/
def backoffStep (d k : Nat) : Nat := min 60 (d + (k + 5))

/-- The scheduled delays of a failure streak: each failure schedules at the
current delay, then updates it by `backoffStep`. -/
def delaysFrom (d : Nat) : List Nat → List Nat
  | [] => []
  | k :: ks => d :: delaysFrom (backoffStep d k) ks

/-- Iterate `retryConnection` over a list of jitter floors, collecting the
scheduled delays in order. -/
def failureStreak (s : WSClientState) : List Nat → WSClientState × List Nat
  | [] => (s, [])
  | k :: ks =>
      let r := WSClient.retryConnection k s
      let rest := failureStreak r.1 ks
      (rest.1, r.2 :: rest.2)

/-- Is a frame a replay frame? -/
def isReplay : Frame → Bool
  | Frame.replayF _ _ => true
  | _ => false

/-- Does an outbound sequence contain a replay frame? -/
def hasReplay (out : List Frame) : Bool :=
  out.any isReplay

theorem foldl_sendAll (fs : List (String × FilterObj)) (acc : List Frame) :
    fs.foldl (fun a p => sendAll a (Frame.filterF p.1 p.2)) acc
      = acc ++ fs.map (fun p => Frame.filterF p.1 p.2) := by
  induction fs generalizing acc with
  | nil => simp
  | cons p rest ih =>
      simp only [List.foldl_cons, List.map_cons]
      rw [ih]
      simp [sendAll]

theorem joinRoomsFilter_eq (ch : List String) (fs : List (String × FilterObj))
    (lm : Option String) (prev : Option Nat) (now maxT : Nat) :
    WSClient.joinRoomsFilter ch fs lm prev now maxT
      = fs.map (fun p => Frame.filterF p.1 p.2) ++ [Frame.joinF ch]
        ++ (if WSClient.replayCondition lm prev now maxT
            then [Frame.replayF ch (lm.getD "")] else []) := by
  unfold WSClient.joinRoomsFilter
  rw [foldl_sendAll]
  split <;> simp [sendAll]

theorem hasReplay_joinRoomsFilter (ch : List String) (fs : List (String × FilterObj))
    (lm : Option String) (prev : Option Nat) (now maxT : Nat) :
    hasReplay (WSClient.joinRoomsFilter ch fs lm prev now maxT)
      = WSClient.replayCondition lm prev now maxT := by
  rw [joinRoomsFilter_eq]
  cases hc : WSClient.replayCondition lm prev now maxT <;>
    simp [hc, hasReplay, isReplay, List.any_append, List.any_map, Function.comp]
  intro x a b _ hx
  subst hx
  rfl

/-- Claim C4: in every reconnect sequence on a still-open transport, the resync
and replay frames come out as one filter frame per stored filter entry first,
then exactly one join frame carrying the full current channel set as its
payload, and the replay frame, exactly when the replay guard holds, comes
last. -/
theorem resync_frame_order (s : WSClientState) (prev : Option Nat) (now : Nat)
    (h : wsOpen s = true) :
    WSClient.resyncReplay s prev now
      = s.filters.map (fun p => Frame.filterF p.1 p.2)
        ++ [Frame.joinF s.channels]
        ++ (if WSClient.replayCondition s.lastMessage prev now s.replayMaxTime
            then [Frame.replayF s.channels (s.lastMessage.getD "")] else []) := by
  unfold WSClient.resyncReplay
  rw [h, if_pos rfl, joinRoomsFilter_eq]

/-- Witness for the resync ordering theorem at a concrete client state. -/
theorem resync_frame_order_witness :
    WSClient.resyncReplay
        { ws := some { readyState := ReadyState.opened, openAttached := true,
                       closeAttached := true, messageAttached := true,
                       errorAttached := true },
          lastPing := some 100, monitorPending := true, reconnectPending := false,
          lastMessage := some "m", lastConnected := some 100,
          channels := ["a", "b"],
          filters := [("ACTIVITY", { ref := 1, content := "f" })],
          retryDelay := 0, replayMaxTime := 300000 }
        (some 100) 200
      = [Frame.filterF "ACTIVITY" { ref := 1, content := "f" },
         Frame.joinF ["a", "b"], Frame.replayF ["a", "b"] "m"] :=
  (resync_frame_order _ (some 100) 200 (by decide)).trans (by decide)

/-- Claim C1: after a (re)connect's resync on a still-open transport, a replay
request — scoped to the full current channel set and starting at the last-seen
message id — is sent if and only if a last-seen message id exists, a
previous-connection timestamp exists, and now minus that timestamp is strictly
below `replayMaxTime`; when any condition fails no replay frame is sent (and
the resync function is total, so no error is raised).  The side conditions
record the reachable-state facts that a stored id is never the empty string
(the dispatcher stores only truthy ids) and that a recorded connection
timestamp is a non-zero clock reading. -/
theorem replay_gating (s : WSClientState) (prev : Option Nat) (now : Nat)
    (hws : wsOpen s = true)
    (hlm : s.lastMessage ≠ some "") (hprev : prev ≠ some 0) :
    (hasReplay (WSClient.resyncReplay s prev now) = true
       ↔ s.lastMessage.isSome = true ∧ prev.isSome = true ∧
           (now : Int) - (prev.getD 0 : Int) < (s.replayMaxTime : Int))
    ∧ (∀ m, s.lastMessage = some m →
         hasReplay (WSClient.resyncReplay s prev now) = true →
         WSClient.resyncReplay s prev now
           = s.filters.map (fun p => Frame.filterF p.1 p.2)
             ++ [Frame.joinF s.channels, Frame.replayF s.channels m])
    ∧ (hasReplay (WSClient.resyncReplay s prev now) = false →
         WSClient.resyncReplay s prev now
           = s.filters.map (fun p => Frame.filterF p.1 p.2)
             ++ [Frame.joinF s.channels]) := by
  have hres : WSClient.resyncReplay s prev now
      = WSClient.joinRoomsFilter s.channels s.filters s.lastMessage prev now
          s.replayMaxTime := by
    unfold WSClient.resyncReplay
    rw [hws, if_pos rfl]
  have hany := hasReplay_joinRoomsFilter s.channels s.filters s.lastMessage
    prev now s.replayMaxTime
  refine ⟨?_, ?_, ?_⟩
  · rw [hres, hany]
    unfold WSClient.replayCondition truthyStr truthyNat
    cases hm : s.lastMessage with
    | none => simp
    | some m =>
        cases hp : prev with
        | none => simp
        | some p =>
            have hm2 : ¬(m = "") := fun h => hlm (by rw [hm, h])
            have hp2 : ¬(p = 0) := fun h => hprev (by rw [hp, h])
            simp [hm2, hp2]
  · intro m hm hrep
    rw [hres] at hrep ⊢
    rw [hany] at hrep
    rw [joinRoomsFilter_eq, hrep, hm]
    simp
  · intro hrep
    rw [hres] at hrep ⊢
    rw [hany] at hrep
    rw [joinRoomsFilter_eq, hrep]
    simp

/-- Witness for the replay-gating theorem: with a last-seen id, a previous
connection 100 ms ago and a 300000 ms window, the replay frame is sent. -/
theorem replay_gating_witness :
    hasReplay (WSClient.resyncReplay
        { ws := some { readyState := ReadyState.opened, openAttached := true,
                       closeAttached := true, messageAttached := true,
                       errorAttached := true },
          lastPing := some 100, monitorPending := true, reconnectPending := false,
          lastMessage := some "m", lastConnected := some 100,
          channels := ["a"], filters := [], retryDelay := 0,
          replayMaxTime := 300000 }
        (some 100) 200) = true :=
  (replay_gating _ (some 100) 200 (by decide) (by decide) (by decide)).1.mpr
    ⟨by decide, by decide, by decide⟩

theorem backoffStep_le (d k : Nat) : backoffStep d k ≤ 60 := by
  unfold backoffStep
  exact Nat.min_le_left _ _

theorem le_backoffStep (d k : Nat) (hd : d ≤ 60) : d ≤ backoffStep d k := by
  unfold backoffStep
  omega

theorem delaysFrom_bounds (ks : List Nat) :
    ∀ d, d ≤ 60 →
      List.Chain' (· ≤ ·) (delaysFrom d ks) ∧ ∀ x ∈ delaysFrom d ks, x ≤ 60 := by
  induction ks with
  | nil => intro d _; simp [delaysFrom]
  | cons k ks ih =>
      intro d hd
      have hstep := backoffStep_le d k
      have hrec := ih (backoffStep d k) hstep
      constructor
      · cases ks with
        | nil => simp [delaysFrom]
        | cons k2 ks2 =>
            rw [delaysFrom, delaysFrom, List.chain'_cons]
            rw [delaysFrom] at hrec
            exact ⟨le_backoffStep d k hd, hrec.1⟩
      · intro x hx
        rw [delaysFrom, List.mem_cons] at hx
        rcases hx with h | h
        · omega
        · exact hrec.2 x h

theorem failureStreak_retryDelay (ks : List Nat) :
    ∀ s : WSClientState,
      (failureStreak s ks).2 = delaysFrom s.retryDelay ks := by
  induction ks with
  | nil => intro s; rfl
  | cons k ks ih =>
      intro s
      show (WSClient.retryConnection k s).2
              :: (failureStreak (WSClient.retryConnection k s).1 ks).2
            = s.retryDelay :: delaysFrom (backoffStep s.retryDelay k) ks
      rw [ih]
      rfl

/-- Claim C5: the reconnect delay starts at 0; each failure schedules the
attempt after the current delay and then sets `delay = min 60 (delay + r)`
with `r = k + 5` for a jitter floor `k` (so `r ∈ [5, 10]` since the source
draws `k ∈ [0, 5]`); within one failure streak the scheduled-delay sequence is
non-decreasing and never exceeds 60; and every successful open resets the
delay to 0 in its single synchronous state update. -/
theorem backoff_policy (s0 : WSClientState) (ks : List Nat)
    (h0 : s0.retryDelay = 0) :
    (∀ maxT, (initialState maxT).retryDelay = 0)
    ∧ (∀ k s, (WSClient.retryConnection k s).2 = s.retryDelay
         ∧ (WSClient.retryConnection k s).1.retryDelay
             = min 60 (s.retryDelay + (k + 5))
         ∧ 5 ≤ k + 5 ∧ (k ≤ 5 → k + 5 ≤ 10))
    ∧ (failureStreak s0 ks).2 = delaysFrom 0 ks
    ∧ List.Chain' (· ≤ ·) ((failureStreak s0 ks).2)
    ∧ (∀ x ∈ (failureStreak s0 ks).2, x ≤ 60)
    ∧ (∀ now s, (WSClient.onOpenUpdate now s).1.retryDelay = 0) := by
  have hstreak : (failureStreak s0 ks).2 = delaysFrom 0 ks := by
    rw [failureStreak_retryDelay, h0]
  have hbounds := delaysFrom_bounds ks 0 (by omega)
  refine ⟨fun maxT => rfl, fun k s => ⟨rfl, rfl, by omega, by omega⟩,
    hstreak, ?_, ?_, fun now s => rfl⟩
  · rw [hstreak]; exact hbounds.1
  · rw [hstreak]; exact hbounds.2

/-- Witness for the backoff theorem: a three-failure streak from the initial
state schedules delays 0, then 8, then 14 (jitter floors 3, 1, 4). -/
theorem backoff_policy_witness :
    (failureStreak (initialState 300000) [3, 1, 4]).2 = [0, 8, 14] :=
  ((backoff_policy (initialState 300000) [3, 1, 4] rfl).2.2.1).trans (by decide)

theorem mapGet_mapSet_self (m : List (String × FilterObj)) (k : String)
    (v : FilterObj) : mapGet (mapSet m k v) k = some v := by
  induction m with
  | nil => simp [mapSet, mapGet]
  | cons p rest ih =>
      obtain ⟨k2, w⟩ := p
      cases h : (k2 == k) <;> simp [mapSet, mapGet, h, ih]

theorem filter_ws (s : WSClientState) (ty : String) (f : FilterObj) :
    (WSClient.filter s ty f).1.ws = s.ws := by
  unfold WSClient.filter
  split
  · rfl
  · dsimp only
    split <;> rfl

theorem filter_get_after (s : WSClientState) (ty : String) (f : FilterObj) :
    ∃ h : FilterObj, mapGet (WSClient.filter s ty f).1.filters ty = some h
      ∧ h.ref = f.ref := by
  cases hsr : WSClient.sameRef (mapGet s.filters ty) f with
  | false =>
      have h1 : (WSClient.filter s ty f).1.filters = mapSet s.filters ty f := by
        unfold WSClient.filter
        rw [hsr]
        simp only [Bool.false_eq_true, if_false]
        split <;> rfl
      exact ⟨f, by rw [h1, mapGet_mapSet_self], rfl⟩
  | true =>
      have h1 : (WSClient.filter s ty f).1 = s := by
        unfold WSClient.filter
        rw [hsr]
        simp
      cases hg : mapGet s.filters ty with
      | none =>
          rw [hg] at hsr
          simp [WSClient.sameRef] at hsr
      | some h =>
          rw [hg] at hsr
          simp only [WSClient.sameRef, beq_iff_eq] at hsr
          exact ⟨h, by rw [h1, hg], hsr⟩

theorem filter_set_branch (s : WSClientState) (ty : String) (g : FilterObj)
    (hsr : WSClient.sameRef (mapGet s.filters ty) g = false) :
    (WSClient.filter s ty g).1 = { s with filters := mapSet s.filters ty g }
    ∧ (WSClient.filter s ty g).2
        = (if wsOpen s then [Frame.filterF ty g] else []) := by
  have hopen : wsOpen { s with filters := mapSet s.filters ty g } = wsOpen s := rfl
  unfold WSClient.filter
  rw [hsr]
  simp only [Bool.false_eq_true, if_false]
  rw [hopen]
  split <;> simp_all

theorem filter_noop_of_sameRef (s : WSClientState) (ty : String) (f : FilterObj)
    (h : WSClient.sameRef (mapGet s.filters ty) f = true) :
    WSClient.filter s ty f = (s, []) := by
  unfold WSClient.filter
  rw [h]
  simp

/-- Claim C7: `filter(type, spec)` is a no-op (no state change, no frame)
exactly when the stored spec for that type is reference-equal to the argument;
a second call with the same reference sends nothing; a call with an
equal-but-distinct object (same content, different reference) stores the new
object and, if the transport is open, sends a filter frame again. -/
theorem filter_identity_dedup (s : WSClientState) (ty : String)
    (f g : FilterObj) :
    (WSClient.filter s ty f = (s, [])
       ↔ WSClient.sameRef (mapGet s.filters ty) f = true)
    ∧ WSClient.filter (WSClient.filter s ty f).1 ty f
        = ((WSClient.filter s ty f).1, [])
    ∧ (f.ref ≠ g.ref → f.content = g.content →
         mapGet (WSClient.filter (WSClient.filter s ty f).1 ty g).1.filters ty
             = some g
         ∧ (wsOpen s = true →
             (WSClient.filter (WSClient.filter s ty f).1 ty g).2
               = [Frame.filterF ty g])) := by
  obtain ⟨h, hget, hr⟩ := filter_get_after s ty f
  refine ⟨⟨?_, filter_noop_of_sameRef s ty f⟩, ?_, ?_⟩
  · intro heq
    cases hsr : WSClient.sameRef (mapGet s.filters ty) f with
    | true => rfl
    | false =>
        exfalso
        have hb := filter_set_branch s ty f hsr
        have h1 : { s with filters := mapSet s.filters ty f } = s := by
          rw [← hb.1, heq]
        have hflt := congrArg WSClientState.filters h1
        have hf : mapGet s.filters ty = some f := by
          rw [← hflt]
          exact mapGet_mapSet_self _ _ _
        rw [hf] at hsr
        simp [WSClient.sameRef] at hsr
  · refine filter_noop_of_sameRef _ ty f ?_
    rw [hget]
    simp [WSClient.sameRef, hr]
  · intro hne hcontent
    have hsr2 : WSClient.sameRef
        (mapGet (WSClient.filter s ty f).1.filters ty) g = false := by
      rw [hget]
      simp only [WSClient.sameRef]
      rw [hr]
      exact beq_eq_false_iff_ne.mpr hne
    have hb := filter_set_branch (WSClient.filter s ty f).1 ty g hsr2
    have hopen : wsOpen (WSClient.filter s ty f).1 = wsOpen s := by
      unfold wsOpen
      rw [filter_ws]
    constructor
    · rw [hb.1]
      exact mapGet_mapSet_self _ _ _
    · intro hws
      rw [hb.2, hopen, hws]
      simp

/-- Witness for the filter-dedup theorem: re-sending an equal-but-distinct
spec object stores the new reference. -/
theorem filter_identity_dedup_witness :
    mapGet (WSClient.filter
        (WSClient.filter (initialState 0) "A" ⟨1, "x"⟩).1
        "A" ⟨2, "x"⟩).1.filters "A" = some ⟨2, "x"⟩ :=
  ((filter_identity_dedup (initialState 0) "A" ⟨1, "x"⟩ ⟨2, "x"⟩).2.2
    (by decide) rfl).1

/-- Claim C8: `leave(X)` removes `X` from the channel set unconditionally
(even if absent), leaves other memberships unchanged, and sends a leave frame
for `X` exactly when the transport is open, regardless of prior membership. -/
theorem leave_unconditional (s : WSClientState) (c : String) :
    ((WSClient.leave s c).1 = { s with channels := setDelete s.channels c })
    ∧ c ∉ (WSClient.leave s c).1.channels
    ∧ (∀ d, d ≠ c → (d ∈ (WSClient.leave s c).1.channels ↔ d ∈ s.channels))
    ∧ ((WSClient.leave s c).2 = if wsOpen s then [Frame.leaveF [c]] else []) := by
  have hopen : wsOpen { s with channels := setDelete s.channels c } = wsOpen s := rfl
  have hpair : WSClient.leave s c
      = ({ s with channels := setDelete s.channels c },
         if wsOpen s then [Frame.leaveF [c]] else []) := by
    unfold WSClient.leave
    cases hws : wsOpen s <;> simp [hopen, hws]
  refine ⟨by rw [hpair], ?_, ?_, by rw [hpair]⟩
  · rw [hpair]
    simp [setDelete, List.mem_filter]
  · intro d hd
    rw [hpair]
    simp [setDelete, List.mem_filter, hd]

/-- Witness for the leave theorem: leaving an unrelated channel keeps the
membership of a joined channel. -/
theorem leave_unconditional_witness :
    ("keep" ∈ (WSClient.leave { initialState 0 with channels := ["keep"] }
        "x").1.channels
      ↔ "keep" ∈ ({ initialState 0 with channels := ["keep"] }
            : WSClientState).channels) :=
  (leave_unconditional { initialState 0 with channels := ["keep"] } "x").2.2.1
    "keep" (by decide)

/-- Claim C2 (counterexample): at a state with an active transport handle and
a pending liveness timer, `close()` leaves the liveness timer pending, so it is
false that after `close()` returns no client-owned timer remains. -/
theorem close_keeps_monitor_cex :
    (⟨some ⟨ReadyState.opened, true, true, true, true⟩, some 0, true, true,
        none, some 5, [], [], 0, 1000⟩ : WSClientState).ws.isSome = true
    ∧ (WSClient.close ⟨some ⟨ReadyState.opened, true, true, true, true⟩,
          some 0, true, true, none, some 5, [], [], 0, 1000⟩).1.monitorPending
        = true := by decide

/-- Claim C2 (amended): for every state with an active transport handle,
`close()` detaches all four lifecycle callbacks, closes the transport, clears
the handle, cancels any pending reconnect timer and schedules no reconnect,
and leaves the registry and session fields unchanged — but it does not stop
the liveness timer: the monitor timer keeps whatever pending status it had. -/
theorem close_spec (s : WSClientState) (w : WS) (h : s.ws = some w) :
    (WSClient.close s).1.ws = none
    ∧ (WSClient.close s).1.reconnectPending = false
    ∧ (WSClient.close s).1.monitorPending = s.monitorPending
    ∧ (WSClient.close s).2
        = some ⟨ReadyState.closing, false, false, false, false⟩
    ∧ (WSClient.close s).1.channels = s.channels
    ∧ (WSClient.close s).1.filters = s.filters
    ∧ (WSClient.close s).1.lastMessage = s.lastMessage
    ∧ (WSClient.close s).1.lastConnected = s.lastConnected
    ∧ (WSClient.close s).1.lastPing = s.lastPing
    ∧ (WSClient.close s).1.retryDelay = s.retryDelay := by
  unfold WSClient.close
  rw [h]
  cases hrp : s.reconnectPending <;> simp [hrp]

/-- Witness for the amended close theorem at a concrete active state. -/
theorem close_spec_witness :
    (WSClient.close ⟨some ⟨ReadyState.opened, true, true, true, true⟩, some 0,
        true, true, none, some 5, [], [], 3, 1000⟩).1.reconnectPending
      = false :=
  (close_spec _ _ rfl).2.1

/-- Claim C3 (counterexample): a transport error event and an unsolicited
transport close event do not produce identical state transitions: from a state
with a live handle and a running monitor they yield different states. -/
theorem error_close_differ_cex :
    WSClient.onErrorEvent 0 ⟨some ⟨ReadyState.opened, true, true, true, true⟩,
        some 0, true, false, none, none, [], [], 0, 1000⟩
      ≠ WSClient.onCloseEvent 0 ⟨some ⟨ReadyState.opened, true, true,
        true, true⟩, some 0, true, false, none, none, [], [], 0, 1000⟩ := by
  decide

/-- Claim C3 (amended): both events schedule a reconnect through the same
backoff policy (same pending flag, same updated delay, same scheduled delay),
but only the unsolicited close event clears the transport handle and stops the
liveness monitor; the error event leaves both untouched. -/
theorem error_close_transitions (k : Nat) (s : WSClientState) :
    (WSClient.onCloseEvent k s).1.ws = none
    ∧ (WSClient.onCloseEvent k s).1.monitorPending = false
    ∧ (WSClient.onErrorEvent k s).1.ws = s.ws
    ∧ (WSClient.onErrorEvent k s).1.monitorPending = s.monitorPending
    ∧ (WSClient.onErrorEvent k s).1.reconnectPending = true
    ∧ (WSClient.onCloseEvent k s).1.reconnectPending = true
    ∧ (WSClient.onErrorEvent k s).1.retryDelay
        = (WSClient.onCloseEvent k s).1.retryDelay
    ∧ (WSClient.onErrorEvent k s).2 = (WSClient.onCloseEvent k s).2 := by
  unfold WSClient.onCloseEvent WSClient.onErrorEvent WSClient.retryConnection
  cases hmp : s.monitorPending <;> simp [hmp]

/-- Claim C6 (counterexample): an inbound frame whose type is an application
type but whose correlation id is the empty string is emitted outward yet does
not update the last-seen message id, so it is false that every non-ack,
non-error frame updates the last-seen id from its correlation id. -/
theorem dispatcher_update_cex :
    (WSClient.onMessage 5 (initialState 0)
        ⟨some "", "activityMessage"⟩).2 = true
    ∧ (WSClient.onMessage 5 (initialState 0)
        ⟨some "", "activityMessage"⟩).1.lastMessage = none := by
  decide

/-- Claim C6 (amended): for every inbound text frame, the activity timestamp
is updated; a frame of type `ack` is never emitted and never updates the
last-seen id; a frame of type `error` is emitted but does not update the
last-seen id; every other frame is emitted, and it updates the last-seen id
from its correlation id exactly when that id is present and non-empty —
otherwise the last-seen id is unchanged. -/
theorem dispatcher_spec (now : Nat) (s : WSClientState) (e : WSClient.Envelope) :
    ((WSClient.onMessage now s e).1.lastPing = some now)
    ∧ (e.t = "ack" → (WSClient.onMessage now s e).2 = false
         ∧ (WSClient.onMessage now s e).1.lastMessage = s.lastMessage)
    ∧ (e.t = "error" → (WSClient.onMessage now s e).2 = true
         ∧ (WSClient.onMessage now s e).1.lastMessage = s.lastMessage)
    ∧ (e.t ≠ "ack" → e.t ≠ "error" → WSClient.envTruthyI e = true →
         (WSClient.onMessage now s e).2 = true
         ∧ (WSClient.onMessage now s e).1.lastMessage = e.i)
    ∧ (e.t ≠ "ack" → WSClient.envTruthyI e = false →
         (WSClient.onMessage now s e).2 = true
         ∧ (WSClient.onMessage now s e).1.lastMessage = s.lastMessage) := by
  refine ⟨?_, ?_, ?_, ?_, ?_⟩
  · unfold WSClient.onMessage
    dsimp only
    split <;> split <;> rfl
  · intro h
    simp [WSClient.onMessage, h]
  · intro h
    simp [WSClient.onMessage, h]
  · intro h1 h2 h3
    simp [WSClient.onMessage, h3, beq_eq_false_iff_ne.mpr h1,
      beq_eq_false_iff_ne.mpr h2, h1]
  · intro h1 h2
    simp [WSClient.onMessage, h2, beq_eq_false_iff_ne.mpr h1, h1]

/-- Witness for the dispatcher theorem: an ack frame is suppressed. -/
theorem dispatcher_spec_witness :
    (WSClient.onMessage 7 (initialState 0) ⟨some "id1", "ack"⟩).2 = false :=
  ((dispatcher_spec 7 (initialState 0) ⟨some "id1", "ack"⟩).2.1 rfl).1

/-- Claim C9: in every state where the transport handle is absent but a
reconnect timer is pending (as after an unsolicited close scheduled a retry),
`close()` leaves the entire client state unchanged — in particular the pending
reconnect timer is not cancelled — so when the timer fires it still runs
`setupConnection` and reopens a connection despite the explicit close. -/
theorem close_noop_when_reconnect_pending (s : WSClientState)
    (h1 : s.ws = none) (h2 : s.reconnectPending = true) :
    WSClient.close s = (s, none)
    ∧ (WSClient.close s).1.reconnectPending = true
    ∧ WSClient.fireReconnectTimeout (WSClient.close s).1
        = { s with reconnectPending := false, ws := some WSClient.newTransport }
    ∧ (WSClient.fireReconnectTimeout (WSClient.close s).1).ws.isSome = true := by
  have hc : WSClient.close s = (s, none) := by
    unfold WSClient.close
    rw [h1]
  refine ⟨hc, by rw [hc]; exact h2, ?_, ?_⟩
  · rw [hc]
    unfold WSClient.fireReconnectTimeout
    rw [h2]
    simp [WSClient.setupConnection]
  · rw [hc]
    unfold WSClient.fireReconnectTimeout
    rw [h2]
    simp [WSClient.setupConnection]

/-- Witness for the close-no-op theorem at a concrete pending-retry state. -/
theorem close_noop_witness :
    WSClient.close { initialState 0 with reconnectPending := true }
      = ({ initialState 0 with reconnectPending := true }, none) :=
  (close_noop_when_reconnect_pending _ rfl rfl).1

/-- Claim C10: an inbound text frame whose correlation id is missing or empty
leaves the last-seen message id unchanged whatever its type; it still updates
the activity timestamp and is emitted outward unless its type is `ack`. -/
theorem falsy_correlation_id (now : Nat) (s : WSClientState)
    (e : WSClient.Envelope) (h : WSClient.envTruthyI e = false) :
    (WSClient.onMessage now s e).1.lastMessage = s.lastMessage
    ∧ (WSClient.onMessage now s e).1.lastPing = some now
    ∧ ((WSClient.onMessage now s e).2 = !(e.t == "ack")) := by
  unfold WSClient.onMessage
  rw [h]
  cases hack : e.t == "ack" <;> simp [hack]

/-- Witness for the falsy-correlation-id theorem: a frame with no id at all
leaves the last-seen id unset. -/
theorem falsy_correlation_id_witness :
    (WSClient.onMessage 9 (initialState 0) ⟨none, "serverUpdate"⟩).1.lastMessage
      = none :=
  (falsy_correlation_id 9 (initialState 0) ⟨none, "serverUpdate"⟩ rfl).1
